import Mathlib

/-!
Shallow embedding of the PocketFlow in-memory storage layer (`MemStorage`
in `server/storage.ts`, re-exported through `server/services/gemini.ts`)
and of the analytics summary route (`server/routes.ts`,
`/api/analytics/summary`).

Modelling choices, each mirroring the TypeScript source:

* Each of the five collections is a JavaScript `Map` keyed by a string id.
  A `Map` is modelled as an insertion-ordered association list
  `List (String × α)`: `Map.get` finds the first matching key,
  `Map.set` overwrites in place (keeping the position) or appends,
  `Map.delete` removes the entry, and `Array.from(map.values())`
  is `List.map Prod.snd`.
* `randomUUID()` and `new Date()` are environment inputs, so the store
  operations take the fresh id and the current timestamp (milliseconds,
  a `Nat`) as explicit parameters.
* Monetary `decimal` strings (two decimal places, per the drizzle schema)
  are modelled by their exact rational value `Rat`.
* Every mutating operation is a JS `async` function returning a promise;
  the result is modelled as `Except StoreError _`, where `.error` stands
  for a rejected promise (a thrown `NotFoundError` or similar) and `.ok`
  for normal resolution.  The source bodies of `MemStorage` never throw,
  which the definitions below reflect.
* `array.sort(cmp)` with a comparator that subtracts timestamps is a
  stable sort by that key; the output of any stable sort with respect to
  a total preorder is unique, so it is modelled by `List.insertionSort`
  with the corresponding relation.
-/

namespace PocketFlow

/-- Enumerated column `account_type` from `shared/schema.ts`. -/
inductive AccountType where
  | main
  | savings
  | other
deriving DecidableEq

/-- Enumerated column `transaction_type` from `shared/schema.ts`. -/
inductive TxType where
  | expense
  | income
deriving DecidableEq

/-- Enumerated column `category` from `shared/schema.ts`. -/
inductive Category where
  | food
  | transport
  | entertainment
  | study
  | mess
  | other
deriving DecidableEq

/-- Enumerated column `debt_type` from `shared/schema.ts`. -/
inductive DebtType where
  | owe
  | owed
deriving DecidableEq

/-- Enumerated column `reminder_status` from `shared/schema.ts`. -/
inductive ReminderStatus where
  | pending
  | paid
  | snoozed
deriving DecidableEq

/-- Row type `Account` from `shared/schema.ts`. -/
structure Account where
  id : String
  name : String
  type : AccountType
  balance : Rat
  createdAt : Nat
deriving DecidableEq

/-- Row type `Transaction` from `shared/schema.ts`. -/
structure Transaction where
  id : String
  accountId : String
  type : TxType
  amount : Rat
  description : String
  category : Category
  createdAt : Nat
deriving DecidableEq

/-- Row type `Debt` from `shared/schema.ts`. -/
structure Debt where
  id : String
  friendName : String
  type : DebtType
  amount : Rat
  description : String
  settled : Bool
  createdAt : Nat
deriving DecidableEq

/-- Row type `Reminder` from `shared/schema.ts`. -/
structure Reminder where
  id : String
  title : String
  description : Option String
  amount : Rat
  dueDate : Nat
  status : ReminderStatus
  recurring : Bool
  createdAt : Nat
deriving DecidableEq

/-- Row type `ChatMessage` from `shared/schema.ts`. -/
structure ChatMessage where
  id : String
  content : String
  isUser : Bool
  createdAt : Nat
deriving DecidableEq

/-- `InsertTransaction` (`insertTransactionSchema` omits `id`, `createdAt`). -/
structure InsertTransaction where
  accountId : String
  type : TxType
  amount : Rat
  description : String
  category : Category
deriving DecidableEq

/-- `InsertDebt` (`insertDebtSchema` omits `id`, `createdAt` and `settled`). -/
structure InsertDebt where
  friendName : String
  type : DebtType
  amount : Rat
  description : String
deriving DecidableEq

/-- `Partial<Debt>`: each field optionally present; `Object.assign`
overwrites exactly the present fields. -/
structure DebtUpdate where
  id : Option String := none
  friendName : Option String := none
  type : Option DebtType := none
  amount : Option Rat := none
  description : Option String := none
  settled : Option Bool := none
  createdAt : Option Nat := none
deriving DecidableEq

/-- `Partial<Reminder>` for `updateReminder`. -/
structure ReminderUpdate where
  id : Option String := none
  title : Option String := none
  description : Option (Option String) := none
  amount : Option Rat := none
  dueDate : Option Nat := none
  status : Option ReminderStatus := none
  recurring : Option Bool := none
  createdAt : Option Nat := none
deriving DecidableEq

/-- `Object.assign(debt, updates)` for a `Partial<Debt>` payload. -/
def applyDebtUpdate (d : Debt) (u : DebtUpdate) : Debt where
  id := u.id.getD d.id
  friendName := u.friendName.getD d.friendName
  type := u.type.getD d.type
  amount := u.amount.getD d.amount
  description := u.description.getD d.description
  settled := u.settled.getD d.settled
  createdAt := u.createdAt.getD d.createdAt

/-- `Object.assign(reminder, updates)` for a `Partial<Reminder>` payload. -/
def applyReminderUpdate (r : Reminder) (u : ReminderUpdate) : Reminder where
  id := u.id.getD r.id
  title := u.title.getD r.title
  description := u.description.getD r.description
  amount := u.amount.getD r.amount
  dueDate := u.dueDate.getD r.dueDate
  status := u.status.getD r.status
  recurring := u.recurring.getD r.recurring
  createdAt := u.createdAt.getD r.createdAt

/-- `Map.prototype.get`: the value at the first matching key, if any. -/
def alGet {α : Type} : List (String × α) → String → Option α
  | [], _ => none
  | kv :: rest, k => if kv.1 = k then some kv.2 else alGet rest k

/-- `Map.prototype.set`: overwrite in place if the key is present
(keeping its insertion position), otherwise append at the end. -/
def alSet {α : Type} : List (String × α) → String → α → List (String × α)
  | [], k, v => [(k, v)]
  | kv :: rest, k, v => if kv.1 = k then (k, v) :: rest else kv :: alSet rest k v

/-- `Map.prototype.delete`: remove the entry with the given key
(a no-op when the key is absent). -/
def alErase {α : Type} (l : List (String × α)) (k : String) : List (String × α) :=
  l.filter (fun kv => kv.1 != k)

/-- Errors a storage promise could reject with.  The spec names
`NotFoundError` and `ValidationError`; the `MemStorage` bodies never
actually throw, so every definition below yields `Except.ok`. -/
inductive StoreError where
  | notFound
  | validation
deriving DecidableEq

/-- The five private `Map` fields of `class MemStorage`. -/
structure MemStorage where
  accounts : List (String × Account)
  transactions : List (String × Transaction)
  debts : List (String × Debt)
  reminders : List (String × Reminder)
  chatMessages : List (String × ChatMessage)
deriving DecidableEq

namespace MemStorage

/-- `MemStorage.initializeDefaults`, run by the constructor on an empty
store: seeds the two default accounts.  `id1`, `id2` are the two
`randomUUID()` draws and `now1`, `now2` the two `new Date()` readings. -/
def initializeDefaults (id1 id2 : String) (now1 now2 : Nat) : MemStorage where
  accounts :=
    alSet (alSet []
      id1 { id := id1, name := "Main Account", type := AccountType.main,
            balance := 2450, createdAt := now1 })
      id2 { id := id2, name := "Savings Account", type := AccountType.savings,
            balance := 8750, createdAt := now2 }
  transactions := []
  debts := []
  reminders := []
  chatMessages := []

/-- `MemStorage.getAccounts`. -/
def getAccounts (s : MemStorage) : List Account :=
  s.accounts.map Prod.snd

/-- `MemStorage.getAccount`. -/
def getAccount (s : MemStorage) (id : String) : Option Account :=
  alGet s.accounts id

/-- `MemStorage.updateAccountBalance`: silently ignores an unknown id. -/
def updateAccountBalance (s : MemStorage) (id : String) (balance : Rat) :
    MemStorage :=
  match alGet s.accounts id with
  | some account =>
      { s with accounts := alSet s.accounts id { account with balance := balance } }
  | none => s

/-- `MemStorage.getTransactions`: optional `accountId` / `category` /
inclusive date-range filters, then sort by descending `createdAt`
(the comparator `b.createdAt.getTime() - a.createdAt.getTime()`). -/
def getTransactions (s : MemStorage) (accountId : Option String)
    (category : Option Category) (startDate endDate : Option Nat) :
    List Transaction :=
  let ts := s.transactions.map Prod.snd
  let ts := match accountId with
    | some a => ts.filter (fun t => t.accountId == a)
    | none => ts
  let ts := match category with
    | some c => ts.filter (fun t => decide (t.category = c))
    | none => ts
  let ts := match startDate with
    | some d => ts.filter (fun t => decide (d ≤ t.createdAt))
    | none => ts
  let ts := match endDate with
    | some d => ts.filter (fun t => decide (t.createdAt ≤ d))
    | none => ts
  List.insertionSort (fun a b => b.createdAt ≤ a.createdAt) ts

/-- `MemStorage.getTransaction`. -/
def getTransaction (s : MemStorage) (id : String) : Option Transaction :=
  alGet s.transactions id

/-- `MemStorage.createTransaction`: always inserts the transaction, then
adjusts the owning account's balance only when the account exists
(`if (account) { ... }` — an unknown `accountId` is silently skipped). -/
def createTransaction (s : MemStorage) (ins : InsertTransaction)
    (id : String) (now : Nat) : Except StoreError (Transaction × MemStorage) :=
  let t : Transaction :=
    { id := id, accountId := ins.accountId, type := ins.type,
      amount := ins.amount, description := ins.description,
      category := ins.category, createdAt := now }
  let s1 : MemStorage := { s with transactions := alSet s.transactions id t }
  match alGet s1.accounts ins.accountId with
  | some account =>
      let currentBalance := account.balance
      let transactionAmount := ins.amount
      let newBalance :=
        if ins.type = TxType.expense then currentBalance - transactionAmount
        else currentBalance + transactionAmount
      Except.ok (t, s1.updateAccountBalance ins.accountId newBalance)
  | none => Except.ok (t, s1)

/-- `MemStorage.deleteTransaction`: `this.transactions.delete(id)`. -/
def deleteTransaction (s : MemStorage) (id : String) :
    Except StoreError MemStorage :=
  Except.ok { s with transactions := alErase s.transactions id }

/-- `MemStorage.getDebts`: values sorted by descending `createdAt`. -/
def getDebts (s : MemStorage) : List Debt :=
  List.insertionSort (fun a b => b.createdAt ≤ a.createdAt)
    (s.debts.map Prod.snd)

/-- `MemStorage.createDebt`: spreads the payload, then sets
`settled: false` unconditionally (the field is also absent from
`insertDebtSchema`). -/
def createDebt (s : MemStorage) (ins : InsertDebt) (id : String) (now : Nat) :
    Except StoreError (Debt × MemStorage) :=
  let d : Debt :=
    { id := id, friendName := ins.friendName, type := ins.type,
      amount := ins.amount, description := ins.description,
      settled := false, createdAt := now }
  Except.ok (d, { s with debts := alSet s.debts id d })

/-- `MemStorage.updateDebt`: `Object.assign` onto the entry when the id
exists, silently a no-op otherwise (`if (debt) { ... }`). -/
def updateDebt (s : MemStorage) (id : String) (u : DebtUpdate) :
    Except StoreError MemStorage :=
  match alGet s.debts id with
  | some debt =>
      Except.ok { s with debts := alSet s.debts id (applyDebtUpdate debt u) }
  | none => Except.ok s

/-- `MemStorage.deleteDebt`. -/
def deleteDebt (s : MemStorage) (id : String) : Except StoreError MemStorage :=
  Except.ok { s with debts := alErase s.debts id }

/-- `MemStorage.getReminders`: values sorted by ascending `dueDate`
(the comparator `a.dueDate.getTime() - b.dueDate.getTime()`). -/
def getReminders (s : MemStorage) : List Reminder :=
  List.insertionSort (fun a b => a.dueDate ≤ b.dueDate)
    (s.reminders.map Prod.snd)

/-- `MemStorage.updateReminder`: same silent-no-op shape as `updateDebt`. -/
def updateReminder (s : MemStorage) (id : String) (u : ReminderUpdate) :
    Except StoreError MemStorage :=
  match alGet s.reminders id with
  | some reminder =>
      Except.ok
        { s with reminders := alSet s.reminders id (applyReminderUpdate reminder u) }
  | none => Except.ok s

/-- `MemStorage.deleteReminder`. -/
def deleteReminder (s : MemStorage) (id : String) :
    Except StoreError MemStorage :=
  Except.ok { s with reminders := alErase s.reminders id }

end MemStorage

/-- `/api/analytics/summary` in `server/routes.ts`: `totalOwed`, the
running `reduce` over `getDebts()` filtered to unsettled debts of type
`owe`. -/
def summaryTotalOwed (s : MemStorage) : Rat :=
  ((s.getDebts).filter
      (fun d => decide (d.type = DebtType.owe) && !d.settled)).foldl
    (fun acc d => acc + d.amount) 0

/-- `/api/analytics/summary` in `server/routes.ts`: `totalOwedToUser`,
the same `reduce` over unsettled debts of type `owed`. -/
def summaryTotalOwedToUser (s : MemStorage) : Rat :=
  ((s.getDebts).filter
      (fun d => decide (d.type = DebtType.owed) && !d.settled)).foldl
    (fun acc d => acc + d.amount) 0

/-- Concrete sample data used to instantiate the universally quantified
results below. -/
def sampleTx1 : Transaction where
  id := "t1"
  accountId := "a1"
  type := TxType.expense
  amount := 50
  description := "snacks"
  category := Category.food
  createdAt := 10

/-- A second sample transaction, older than `sampleTx1`. -/
def sampleTx2 : Transaction where
  id := "t2"
  accountId := "a1"
  type := TxType.income
  amount := 200
  description := "allowance"
  category := Category.other
  createdAt := 4

/-- A sample unsettled debt. -/
def sampleDebt : Debt where
  id := "d1"
  friendName := "Asha"
  type := DebtType.owe
  amount := 120
  description := "lunch"
  settled := false
  createdAt := 5

/-- A sample pending reminder. -/
def sampleReminder : Reminder where
  id := "r1"
  title := "rent"
  description := none
  amount := 300
  dueDate := 20
  status := ReminderStatus.pending
  recurring := false
  createdAt := 3

/-- A later sample reminder. -/
def sampleReminder2 : Reminder where
  id := "r2"
  title := "wifi"
  description := some "monthly plan"
  amount := 40
  dueDate := 25
  status := ReminderStatus.pending
  recurring := true
  createdAt := 6

/-- A concrete store holding one account and a couple of each entity. -/
def sampleStore : MemStorage where
  accounts :=
    [("a1", { id := "a1", name := "Main Account", type := AccountType.main,
              balance := 2450, createdAt := 0 })]
  transactions := [("t1", sampleTx1), ("t2", sampleTx2)]
  debts := [("d1", sampleDebt)]
  reminders := [("r1", sampleReminder), ("r2", sampleReminder2)]
  chatMessages := []

/-- The store as the `MemStorage` constructor leaves it, with concrete
ids and timestamps. -/
def seedStore : MemStorage :=
  MemStorage.initializeDefaults "a1" "a2" 0 0

theorem alGet_alSet_self {α : Type} (l : List (String × α)) (k : String)
    (v : α) : alGet (alSet l k v) k = some v := by
  induction l with
  | nil => simp [alGet, alSet]
  | cons kv rest ih =>
    by_cases h : kv.1 = k
    · simp [alSet, alGet, h]
    · simp [alSet, alGet, h, ih]

theorem alGet_alSet_ne {α : Type} (l : List (String × α)) (k k' : String)
    (v : α) (h : k' ≠ k) : alGet (alSet l k v) k' = alGet l k' := by
  induction l with
  | nil => simp [alGet, alSet, Ne.symm h]
  | cons kv rest ih =>
    by_cases hk : kv.1 = k
    · simp [alSet, alGet, hk, Ne.symm h]
    · simp [alSet, alGet, hk, ih]

theorem alGet_eq_none {α : Type} {l : List (String × α)} {k : String}
    (h : alGet l k = none) : ∀ kv ∈ l, kv.1 ≠ k := by
  induction l with
  | nil => simp
  | cons kv rest ih =>
    by_cases hk : kv.1 = k
    · simp [alGet, hk] at h
    · simp only [alGet, hk, if_false] at h
      intro kv' hkv'
      rcases List.mem_cons.mp hkv' with h1 | h1
      · simpa [h1] using hk
      · exact ih h kv' h1

theorem alErase_of_alGet_none {α : Type} {l : List (String × α)} {k : String}
    (h : alGet l k = none) : alErase l k = l := by
  apply List.filter_eq_self.mpr
  intro kv hkv
  simpa using alGet_eq_none h kv hkv

theorem alGet_alErase_self {α : Type} (l : List (String × α)) (k : String) :
    alGet (alErase l k) k = none := by
  induction l with
  | nil => rfl
  | cons kv rest ih =>
    by_cases h : kv.1 = k
    · simpa [alErase, h] using ih
    · simpa [alErase, alGet, h] using ih

theorem alErase_idem {α : Type} (l : List (String × α)) (k : String) :
    alErase (alErase l k) k = alErase l k :=
  alErase_of_alGet_none (alGet_alErase_self l k)

/-- Claim C1 (code bug): at the failing input — the seeded store and a
transaction-creation request whose `accountId` `"ghost"` matches no
account — `createTransaction` resolves successfully (no `NotFoundError`),
persists the transaction, and leaves every account balance unchanged,
diverging from the specified foreign-key rejection. -/
theorem createTransaction_unknown_account_divergence :
    ∃ t s', MemStorage.createTransaction seedStore
        { accountId := "ghost", type := TxType.income, amount := 5,
          description := "found money", category := Category.other }
        "t9" 7 = Except.ok (t, s') ∧
      s'.accounts = seedStore.accounts ∧
      alGet s'.transactions "t9" = some t :=
  ⟨_, _, rfl, rfl, rfl⟩

/-- Claim C3 counterexample: on the concrete store `sampleStore`,
updating the absent id `"ghost"` succeeds silently — it resolves with
the store unchanged and signals no `NotFoundError` — for both
`updateDebt` and `updateReminder`, refuting the claim as stated. -/
theorem update_unknown_id_counterexample :
    MemStorage.updateDebt sampleStore "ghost" { settled := some true } =
      Except.ok sampleStore ∧
    MemStorage.updateDebt sampleStore "ghost" { settled := some true } ≠
      Except.error StoreError.notFound ∧
    MemStorage.updateReminder sampleStore "ghost"
        { status := some ReminderStatus.paid } = Except.ok sampleStore ∧
    MemStorage.updateReminder sampleStore "ghost"
        { status := some ReminderStatus.paid } ≠
      Except.error StoreError.notFound := by
  refine ⟨rfl, ?_, rfl, ?_⟩ <;> simp [MemStorage.updateDebt,
    MemStorage.updateReminder, sampleStore, alGet, sampleDebt,
    sampleReminder, sampleReminder2]

/-- Claim C3 (amended): for every id that does not reference an existing
entity, `updateDebt` and `updateReminder` succeed silently as no-ops:
they signal no error and leave the store unchanged. -/
theorem update_unknown_id_silent_noop :
    ∀ (s : MemStorage) (id : String),
      (∀ u : DebtUpdate, alGet s.debts id = none →
        MemStorage.updateDebt s id u = Except.ok s) ∧
      (∀ u : ReminderUpdate, alGet s.reminders id = none →
        MemStorage.updateReminder s id u = Except.ok s) := by
  intro s id
  constructor
  · intro u h
    simp [MemStorage.updateDebt, h]
  · intro u h
    simp [MemStorage.updateReminder, h]

/-- Claim C3 (amended) witness: the amended statement instantiated on
`sampleStore` at the absent id `"ghost"`. -/
theorem update_unknown_id_silent_noop_witness :
    alGet sampleStore.debts "ghost" = none ∧
    MemStorage.updateDebt sampleStore "ghost" { settled := some true } =
      Except.ok sampleStore :=
  ⟨rfl, (update_unknown_id_silent_noop sampleStore "ghost").1
    { settled := some true } rfl⟩

/-- Claim C4: deleting any transaction id leaves the account collection
(hence every account balance) unchanged — the creation-time balance
delta is never reversed — and likewise leaves the debt, reminder and
chat-message collections unchanged. -/
theorem deleteTransaction_frame :
    ∀ (s : MemStorage) (id : String),
      ∃ s', MemStorage.deleteTransaction s id = Except.ok s' ∧
        s'.accounts = s.accounts ∧ s'.debts = s.debts ∧
        s'.reminders = s.reminders ∧ s'.chatMessages = s.chatMessages ∧
        s'.transactions = alErase s.transactions id := by
  intro s id
  exact ⟨_, rfl, rfl, rfl, rfl, rfl, rfl⟩

/-- Claim C5: `deleteTransaction`, `deleteDebt` and `deleteReminder`
signal no error on any id, the entity is absent afterwards, a second
call after a successful delete is a no-op with no error, and deleting
an already-absent id leaves the store exactly as it was. -/
theorem delete_idempotent :
    ∀ (s : MemStorage) (id : String),
      (∃ s', MemStorage.deleteTransaction s id = Except.ok s' ∧
        alGet s'.transactions id = none ∧
        MemStorage.deleteTransaction s' id = Except.ok s' ∧
        (alGet s.transactions id = none → s' = s)) ∧
      (∃ s', MemStorage.deleteDebt s id = Except.ok s' ∧
        alGet s'.debts id = none ∧
        MemStorage.deleteDebt s' id = Except.ok s' ∧
        (alGet s.debts id = none → s' = s)) ∧
      (∃ s', MemStorage.deleteReminder s id = Except.ok s' ∧
        alGet s'.reminders id = none ∧
        MemStorage.deleteReminder s' id = Except.ok s' ∧
        (alGet s.reminders id = none → s' = s)) := by
  intro s id
  obtain ⟨a, t, d, r, c⟩ := s
  refine ⟨⟨_, rfl, alGet_alErase_self _ _, ?_, ?_⟩,
          ⟨_, rfl, alGet_alErase_self _ _, ?_, ?_⟩,
          ⟨_, rfl, alGet_alErase_self _ _, ?_, ?_⟩⟩ <;>
    simp [MemStorage.deleteTransaction, MemStorage.deleteDebt,
      MemStorage.deleteReminder, alErase_idem] <;>
    intro h <;> exact alErase_of_alGet_none h

/-- Claim C5 witness: deleting the absent transaction id `"ghost"` from
`sampleStore` succeeds and returns the store unchanged. -/
theorem delete_idempotent_witness :
    ∃ s', MemStorage.deleteTransaction sampleStore "ghost" = Except.ok s' ∧
      s' = sampleStore := by
  obtain ⟨⟨s', hok, _, _, heq⟩, _, _⟩ := delete_idempotent sampleStore "ghost"
  exact ⟨s', hok, heq rfl⟩

/-- Claim C7: for any two distinct generated ids and any two creation
timestamps, a freshly initialized store contains exactly the two seed
accounts — "Main Account" of type `main` with balance 2450.00 and
"Savings Account" of type `savings` with balance 8750.00 — and no
transactions, debts, reminders or chat messages. -/
theorem initializeDefaults_seed :
    ∀ (id1 id2 : String) (now1 now2 : Nat), id1 ≠ id2 →
      (MemStorage.initializeDefaults id1 id2 now1 now2).getAccounts =
        [{ id := id1, name := "Main Account", type := AccountType.main,
           balance := 2450, createdAt := now1 },
         { id := id2, name := "Savings Account", type := AccountType.savings,
           balance := 8750, createdAt := now2 }] ∧
      (MemStorage.initializeDefaults id1 id2 now1 now2).transactions = [] ∧
      (MemStorage.initializeDefaults id1 id2 now1 now2).debts = [] ∧
      (MemStorage.initializeDefaults id1 id2 now1 now2).reminders = [] ∧
      (MemStorage.initializeDefaults id1 id2 now1 now2).chatMessages = [] := by
  intro id1 id2 now1 now2 h
  refine ⟨?_, rfl, rfl, rfl, rfl⟩
  simp [MemStorage.initializeDefaults, MemStorage.getAccounts, alSet, h]

/-- Claim C7 witness: the seed property instantiated with the concrete
ids `"a1"`, `"a2"` and timestamp 0. -/
theorem initializeDefaults_seed_witness :
    "a1" ≠ "a2" ∧
    (MemStorage.initializeDefaults "a1" "a2" 0 0).transactions = [] :=
  ⟨by decide, (initializeDefaults_seed "a1" "a2" 0 0 (by decide)).2.1⟩

/-- Claim C9: for every debt-creation payload, id and timestamp,
`createDebt` stores and returns a debt whose `settled` field is `false`;
the insert payload carries no `settled` field at all (the schema omits
it), and the store sets `settled: false` after spreading the payload. -/
theorem createDebt_settled_false :
    ∀ (s : MemStorage) (ins : InsertDebt) (id : String) (now : Nat),
      ∃ d s', MemStorage.createDebt s ins id now = Except.ok (d, s') ∧
        d.settled = false ∧ alGet s'.debts id = some d := by
  intro s ins id now
  exact ⟨_, _, rfl, rfl, alGet_alSet_self _ _ _⟩

/-- Claim C10: updating an existing debt or reminder changes only the
fields present in the partial payload of that one entity; absent fields
keep their previous values, entities under other keys are untouched, and
the other four collections (in particular account balances) are
unchanged. -/
theorem update_partial_frame :
    ∀ (s : MemStorage) (id : String),
      (∀ (u : DebtUpdate) (d : Debt), alGet s.debts id = some d →
        ∃ s', MemStorage.updateDebt s id u = Except.ok s' ∧
          s'.accounts = s.accounts ∧ s'.transactions = s.transactions ∧
          s'.reminders = s.reminders ∧ s'.chatMessages = s.chatMessages ∧
          (∀ k, k ≠ id → alGet s'.debts k = alGet s.debts k) ∧
          ∃ d', alGet s'.debts id = some d' ∧
            (u.id = none → d'.id = d.id) ∧
            (u.friendName = none → d'.friendName = d.friendName) ∧
            (u.type = none → d'.type = d.type) ∧
            (u.amount = none → d'.amount = d.amount) ∧
            (u.description = none → d'.description = d.description) ∧
            (u.settled = none → d'.settled = d.settled) ∧
            (u.createdAt = none → d'.createdAt = d.createdAt)) ∧
      (∀ (u : ReminderUpdate) (r : Reminder), alGet s.reminders id = some r →
        ∃ s', MemStorage.updateReminder s id u = Except.ok s' ∧
          s'.accounts = s.accounts ∧ s'.transactions = s.transactions ∧
          s'.debts = s.debts ∧ s'.chatMessages = s.chatMessages ∧
          (∀ k, k ≠ id → alGet s'.reminders k = alGet s.reminders k) ∧
          ∃ r', alGet s'.reminders id = some r' ∧
            (u.id = none → r'.id = r.id) ∧
            (u.title = none → r'.title = r.title) ∧
            (u.description = none → r'.description = r.description) ∧
            (u.amount = none → r'.amount = r.amount) ∧
            (u.dueDate = none → r'.dueDate = r.dueDate) ∧
            (u.status = none → r'.status = r.status) ∧
            (u.recurring = none → r'.recurring = r.recurring) ∧
            (u.createdAt = none → r'.createdAt = r.createdAt)) := by
  intro s id
  constructor
  · intro u d h
    refine ⟨{ s with debts := alSet s.debts id (applyDebtUpdate d u) },
      by simp [MemStorage.updateDebt, h], rfl, rfl, rfl, rfl,
      fun k hk => alGet_alSet_ne _ _ _ _ hk, applyDebtUpdate d u,
      alGet_alSet_self _ _ _, ?_, ?_, ?_, ?_, ?_, ?_, ?_⟩ <;>
      intro hu <;> simp [applyDebtUpdate, hu]
  · intro u r h
    refine ⟨{ s with reminders := alSet s.reminders id (applyReminderUpdate r u) },
      by simp [MemStorage.updateReminder, h], rfl, rfl, rfl, rfl,
      fun k hk => alGet_alSet_ne _ _ _ _ hk, applyReminderUpdate r u,
      alGet_alSet_self _ _ _, ?_, ?_, ?_, ?_, ?_, ?_, ?_, ?_⟩ <;>
      intro hu <;> simp [applyReminderUpdate, hu]

/-- Claim C10 witness: marking the stored debt `"d1"` settled on
`sampleStore` leaves the accounts collection unchanged. -/
theorem update_partial_frame_witness :
    alGet sampleStore.debts "d1" = some sampleDebt ∧
    ∃ s', MemStorage.updateDebt sampleStore "d1" { settled := some true } =
      Except.ok s' ∧ s'.accounts = sampleStore.accounts := by
  refine ⟨rfl, ?_⟩
  obtain ⟨hd, -⟩ := update_partial_frame sampleStore "d1"
  obtain ⟨s', hok, hacc, -⟩ := hd { settled := some true } sampleDebt rfl
  exact ⟨s', hok, hacc⟩

/-- Claim C6: when all stored transactions have pairwise-distinct
`createdAt` values, `getTransactions` (under any combination of the
optional filters) returns a list in strictly descending `createdAt`
order; and on every store `getReminders` returns a list in ascending
`dueDate` order. -/
theorem ordering_law :
    (∀ (s : MemStorage) (a : Option String) (c : Option Category)
        (sd ed : Option Nat),
      (s.transactions.map Prod.snd).Pairwise
        (fun t u => t.createdAt ≠ u.createdAt) →
      (s.getTransactions a c sd ed).Sorted
        (fun t u => u.createdAt < t.createdAt)) ∧
    (∀ s : MemStorage,
      (s.getReminders).Sorted (fun r r' => r.dueDate ≤ r'.dueDate)) := by
  have key : ∀ l : List Transaction,
      l.Pairwise (fun t u => t.createdAt ≠ u.createdAt) →
      (List.insertionSort (fun a b => b.createdAt ≤ a.createdAt) l).Sorted
        (fun t u => u.createdAt < t.createdAt) := by
    intro l hl
    haveI : IsTotal Transaction (fun a b => b.createdAt ≤ a.createdAt) :=
      ⟨fun a b => Nat.le_total b.createdAt a.createdAt⟩
    haveI : IsTrans Transaction (fun a b => b.createdAt ≤ a.createdAt) :=
      ⟨fun _ _ _ h1 h2 => le_trans h2 h1⟩
    have hs := List.sorted_insertionSort
      (fun (a b : Transaction) => b.createdAt ≤ a.createdAt) l
    have hne : (List.insertionSort
        (fun (a b : Transaction) => b.createdAt ≤ a.createdAt) l).Pairwise
        (fun t u => t.createdAt ≠ u.createdAt) :=
      ((List.perm_insertionSort _ l).pairwise_iff
        (fun hxy => Ne.symm hxy)).mpr hl
    exact hs.imp₂ (fun _ _ hle hne2 => lt_of_le_of_ne hle (Ne.symm hne2)) hne
  constructor
  · intro s a c sd ed hp
    cases a <;> cases c <;> cases sd <;> cases ed <;>
      simp only [MemStorage.getTransactions] <;>
      apply key <;>
      (repeat' apply fun h => List.Pairwise.sublist (List.filter_sublist _) h) <;>
      exact hp
  · intro s
    haveI : IsTotal Reminder (fun a b => a.dueDate ≤ b.dueDate) :=
      ⟨fun a b => Nat.le_total a.dueDate b.dueDate⟩
    haveI : IsTrans Reminder (fun a b => a.dueDate ≤ b.dueDate) :=
      ⟨fun _ _ _ h1 h2 => le_trans h1 h2⟩
    exact List.sorted_insertionSort _ _

/-- Claim C6 witness: the ordering law instantiated on `sampleStore`,
whose two transactions have distinct `createdAt` values. -/
theorem ordering_law_witness :
    (sampleStore.transactions.map Prod.snd).Pairwise
      (fun t u => t.createdAt ≠ u.createdAt) ∧
    (sampleStore.getTransactions none none none none).Sorted
      (fun t u => u.createdAt < t.createdAt) ∧
    (sampleStore.getReminders).Sorted (fun r r' => r.dueDate ≤ r'.dueDate) :=
  ⟨by decide, ordering_law.1 sampleStore none none none none (by decide),
    ordering_law.2 sampleStore⟩

theorem foldl_amount_eq_sum (l : List Debt) :
    l.foldl (fun acc d => acc + d.amount) 0 = (l.map Debt.amount).sum := by
  rw [List.sum_eq_foldl, List.foldl_map]

theorem map_snd_filter_settled (l : List (String × Debt)) :
    (l.filter (fun kd => !kd.2.settled)).map Prod.snd =
      (l.map Prod.snd).filter (fun d => !d.settled) := by
  induction l with
  | nil => rfl
  | cons kv rest ih => by_cases h : kv.2.settled <;> simp [h, ih]

theorem summary_filter_sum (pred : Debt → Bool) (s : MemStorage) :
    ((s.getDebts).filter pred).foldl (fun acc d => acc + d.amount) 0 =
      (((s.debts.map Prod.snd).filter pred).map Debt.amount).sum := by
  rw [foldl_amount_eq_sum]
  exact (((List.perm_insertionSort _ _).filter pred).map Debt.amount).sum_eq

/-- Claim C8: the analytics summary's `totalOwed` is exactly the sum of
`amount` over stored debts with type `owe` and `settled = false`,
`totalOwedToUser` the sum over type `owed` and `settled = false`, and
every settled debt is excluded from both sums: removing all settled
debts from the store changes neither total. -/
theorem netDebt_sums :
    ∀ s : MemStorage,
      summaryTotalOwed s =
        (((s.debts.map Prod.snd).filter
          (fun d => decide (d.type = DebtType.owe) && !d.settled)).map
            Debt.amount).sum ∧
      summaryTotalOwedToUser s =
        (((s.debts.map Prod.snd).filter
          (fun d => decide (d.type = DebtType.owed) && !d.settled)).map
            Debt.amount).sum ∧
      summaryTotalOwed
          { s with debts := s.debts.filter (fun kd => !kd.2.settled) } =
        summaryTotalOwed s ∧
      summaryTotalOwedToUser
          { s with debts := s.debts.filter (fun kd => !kd.2.settled) } =
        summaryTotalOwedToUser s := by
  intro s
  have h1 := summary_filter_sum
    (fun d => decide (d.type = DebtType.owe) && !d.settled) s
  have h2 := summary_filter_sum
    (fun d => decide (d.type = DebtType.owed) && !d.settled) s
  have h3 := summary_filter_sum
    (fun d => decide (d.type = DebtType.owe) && !d.settled)
    { s with debts := s.debts.filter (fun kd => !kd.2.settled) }
  have h4 := summary_filter_sum
    (fun d => decide (d.type = DebtType.owed) && !d.settled)
    { s with debts := s.debts.filter (fun kd => !kd.2.settled) }
  have hdrop : ∀ ty : DebtType,
      ((s.debts.map Prod.snd).filter (fun d => !d.settled)).filter
        (fun d => decide (d.type = ty) && !d.settled) =
      (s.debts.map Prod.snd).filter
        (fun d => decide (d.type = ty) && !d.settled) := by
    intro ty
    rw [List.filter_filter]
    apply List.filter_congr
    intro d _
    cases h : d.settled <;> simp [h]
  refine ⟨h1, h2, ?_, ?_⟩
  · unfold summaryTotalOwed
    rw [h1, h3, map_snd_filter_settled, hdrop]
  · unfold summaryTotalOwedToUser
    rw [h2, h4, map_snd_filter_settled, hdrop]

end PocketFlow
